import Mathlib

/- Shallow embedding of the X-to-Telegram relay bot (src/main.py): content
   classifier, dedup store, account rotator and the per-tweet pipeline.
   Python strings are modelled as Lean strings over their character lists.
   The Python regular expressions the classifier uses are translated
   pattern-by-pattern (they are alternations of literal runs, character
   classes and greedy non-space runs).  Character-level operations
   (lower/upper/whitespace/word characters) are modelled on the
   ASCII-plus-Thai-plus-emoji fragment the program's data lives in.
   MD5 digests are idealised as their preimages (collision-freedom); this
   preserves every equality test the program performs on a digest. -/

namespace XTelegram

/-- Python str.lower (per-character; the ASCII fragment, which covers the
    blocked lists and all inputs considered here). -/
def pyLower (s : String) : String := String.mk (s.data.map Char.toLower)

/-- Python str.upper (per-character, ASCII fragment). -/
def pyUpper (s : String) : String := String.mk (s.data.map Char.toUpper)

/-- Drop whitespace on both ends of a character list (Python str.strip). -/
def trimL (l : List Char) : List Char :=
  ((l.dropWhile Char.isWhitespace).reverse.dropWhile Char.isWhitespace).reverse

/-- Python str.strip. -/
def pyStrip (s : String) : String := String.mk (trimL s.data)

/-- Python str.rstrip. -/
def pyRstrip (s : String) : String :=
  String.mk ((s.data.reverse.dropWhile Char.isWhitespace).reverse)

def startsWithL : List Char → List Char → Bool
  | _, [] => true
  | [], _ :: _ => false
  | h :: hs, n :: ns => h == n && startsWithL hs ns

/-- Python substring test: needle in hay. -/
def containsL : List Char → List Char → Bool
  | [], n => n.isEmpty
  | h :: t, n => startsWithL (h :: t) n || containsL t n

def strContains (hay needle : String) : Bool := containsL hay.data needle.data

def endsWithL (l suff : List Char) : Bool :=
  l.drop (l.length - suff.length) == suff

/-- Python str.endswith. -/
def strEndsWith (s suff : String) : Bool := endsWithL s.data suff.data

/-- Replace every occurrence of one character by another
    (Python str.replace with single-character arguments). -/
def pyReplaceChar (a b : Char) (l : List Char) : List Char :=
  l.map (fun c => if c = a then b else c)

/-- Delete every occurrence of a character
    (Python str.replace of a character by the empty string). -/
def pyDropChar (a : Char) (l : List Char) : List Char :=
  l.filter (fun c => c ≠ a)

def between (lo hi n : Nat) : Bool := decide (lo ≤ n ∧ n ≤ hi)

/-- Character ranges of the emoji pattern in is_emoji_only_post
    (main.py lines 301-319). -/
def emojiAll (c : Char) : Bool :=
  let n := c.toNat
  between 0x1F600 0x1F64F n || between 0x1F300 0x1F5FF n ||
  between 0x1F680 0x1F6FF n || between 0x1F1E0 0x1F1FF n ||
  between 0x1F700 0x1F77F n || between 0x1F780 0x1F7FF n ||
  between 0x1F800 0x1F8FF n || between 0x1F900 0x1F9FF n ||
  between 0x1FA00 0x1FA6F n || between 0x1FA70 0x1FAFF n ||
  between 0x2600 0x26FF n || between 0x2700 0x27BF n ||
  between 0xFE00 0xFE0F n || n == 0x1F004 || n == 0x1F0CF

/-- Character ranges of the narrower emoji pattern used by the
    short-content check (main.py line 510). -/
def emoji510 (c : Char) : Bool :=
  let n := c.toNat
  between 0x1F600 0x1F64F n || between 0x1F300 0x1F5FF n ||
  between 0x1F680 0x1F6FF n

/-- Python regex word character, restricted to the fragment used here:
    ASCII alphanumerics, underscore, and the Thai block U+0E00-U+0E7F that
    line 511 keeps explicitly. -/
def isWordChar (c : Char) : Bool :=
  c.isAlphanum || c == '_' || between 0xE00 0xE7F c.toNat

def notSpace (c : Char) : Bool := !c.isWhitespace

/-- Character class of the generic domain pattern: left bracket a-zA-Z0-9.- right bracket. -/
def classA (c : Char) : Bool := c.isAlphanum || c == '.' || c == '-'

def isAsciiLetter (c : Char) : Bool := c.isAlpha

/-- Match a literal pattern at the head of the input; the Boolean selects
    case-insensitive matching (re.IGNORECASE).  Returns the rest on success. -/
def matchLit (ci : Bool) : List Char → List Char → Option (List Char)
  | [], l => some l
  | _ :: _, [] => none
  | p :: ps, c :: cs =>
    if (if ci then c.toLower == p else c == p) then matchLit ci ps cs else none

/-- Match a literal followed by a non-empty greedy non-space run, the shape
    of every literal alternative in the URL regexes. -/
def litTok (ci : Bool) (lit : List Char) (l : List Char) : Option (List Char) :=
  match matchLit ci lit l with
  | none => none
  | some rest =>
    if (rest.takeWhile notSpace).isEmpty then none
    else some (rest.dropWhile notSpace)

def firstLit (ci : Bool) : List (List Char) → List Char → Option (List Char)
  | [], _ => none
  | lit :: ls, l =>
    match litTok ci lit l with
    | some r => some r
    | none => firstLit ci ls l

/-- Backtracking condition of the generic domain alternative: within the
    maximal classA run there is a dot at position at least one followed by
    two letters.  When it holds, the whole alternative consumes up to the
    next whitespace because of the trailing greedy non-space star. -/
def domainDotScan : List Char → Nat → Bool
  | [], _ => false
  | c :: cs, i =>
    if !(classA c) then false
    else if c == '.' && 1 ≤ i then
      match cs with
      | b :: d :: _ =>
        if isAsciiLetter b && isAsciiLetter d then true
        else domainDotScan cs (i + 1)
      | _ => domainDotScan cs (i + 1)
    else domainDotScan cs (i + 1)

/-- Try the regex alternatives, in their listed order, at one position. -/
def tryAlt (ci useGen : Bool) (lits : List (List Char)) (l : List Char) :
    Option (List Char) :=
  match firstLit ci lits l with
  | some r => some r
  | none =>
    if useGen && domainDotScan l 0 then some (l.dropWhile notSpace) else none

/-- Left-to-right scan of re.sub with the URL alternation: remove every
    non-overlapping match, record whether any match was found.  Fuel is the
    input length; every match consumes at least one character, so the fuel
    never runs out before the scan ends. -/
def urlScanAux (ci useGen : Bool) (lits : List (List Char)) :
    Nat → List Char → Bool × List Char
  | _, [] => (false, [])
  | 0, l => (false, l)
  | fuel + 1, c :: cs =>
    match tryAlt ci useGen lits (c :: cs) with
    | some rest =>
      let r := urlScanAux ci useGen lits fuel rest
      (true, r.2)
    | none =>
      let r := urlScanAux ci useGen lits fuel cs
      (r.1, c :: r.2)

/-- Alternatives of the is_link_only_post regex (main.py lines 349-357),
    cut before the generic domain alternative; https is tried before http,
    as the greedy optional s does. -/
def linkOnlyLits : List (List Char) :=
  ["https://".data, "http://".data, "www.".data, "t.co/".data,
   "bit.ly/".data, "tinyurl.com/".data, "youtu.be/".data]

/-- Alternatives of the short-content URL removal (main.py line 509);
    no IGNORECASE flag there, so matching is case-sensitive. -/
def lits509 : List (List Char) :=
  ["https://".data, "http://".data, "www.".data, "t.co/".data]

def urlRemoveLinkOnly (l : List Char) : Bool × List Char :=
  urlScanAux true true linkOnlyLits l.length l

def urlRemove509 (l : List Char) : Bool × List Char :=
  urlScanAux false false lits509 l.length l

/-- is_emoji_only_post (main.py lines 288-334). -/
def isEmojiOnlyPost (text : String) : Bool :=
  let clean := (trimL text.data).filter notSpace
  if clean.isEmpty then false
  else (clean.filter (fun c => !(emojiAll c))).isEmpty

/-- is_link_only_post (main.py lines 336-386). -/
def isLinkOnlyPost (text : String) : Bool :=
  let clean := trimL text.data
  if clean.isEmpty then false
  else
    let r := urlScanAux true true linkOnlyLits clean.length clean
    if !r.1 then false
    else (r.2.filter notSpace).isEmpty

/-- Number of content characters left by lines 509-512: URLs removed
    case-sensitively, then the three emoji ranges, then everything that is
    not a word or Thai character. -/
def contentLen (text : String) : Nat :=
  let l1 := (urlRemove509 text.data).2
  let l2 := l1.filter (fun c => !(emoji510 c))
  (l2.filter isWordChar).length

/-- Blocked phrase list (main.py lines 405-442), verbatim including the
    duplicated entry. -/
def blockedPhrases : List String :=
  ["Register for Arkham. One account gives you:",
   "$100 Signup Bonus",
   "auth.arkm.com/register",
   "From cryptoquant.com",
   "whop.com/alicharts/",
   "From luma.com",
   "partner.blofin.com/d/AliCharts",
   "Dive into our weekly report for all the details ⤵️",
   "Read the complete analysis ⤵️",
   "Read more ⤵️",
   "Dive into our latest research dashboard for more ⤵️",
   "Get the full insight ⤵️",
   "Explore the full post ⤵️",
   "Dive into the complete analysis ⤵️",
   "Read the full analysis ⤵️",
   "Explore the complete analysis ⤵️",
   "Full post ⤵️",
   "Dive into our research dashboard for the details ⤵️",
   "Dive into our latest research dashboard for all the details ⤵️",
   "Dive into the full analysis ⤵️",
   "Get all the insights in our weekly report ⤵️",
   "Read the complete breakdown ⤵️",
   "Dive into our dashboard for more ⤵️",
   "Dive into the complete breakdown ⤵️",
   "Live chart ⤵️",
   "See the complete breakdown ⤵️",
   "See the data ⤵️",
   "View the full post ⤵️",
   "Full analysis ⤵️",
   "Follow the complete breakdown ⤵️",
   "Explore our latest dashboard on exchange token performance ⤵️",
   "Dive into our dashboard on Altcoin momentum for more ⤵️",
   "open.substack.com",
   "partner.blofin.com/d/AliCharts",
   "kcex.com/register",
   "0% spot fees"]

def blockedDomains : List String :=
  ["cryptoquant.com", "arkm.com", "blofin.com", "whop.com"]

/-- The suspicious URL patterns (main.py lines 468-474) are literals with
    escaped dots; first component is the literal text the regex matches,
    second the raw pattern string used to build the reason tag. -/
def suspiciousPatterns : List (String × String) :=
  [("auth.arkm.com", "auth\\.arkm\\.com"),
   ("arkm.com/register", "arkm\\.com/register"),
   ("cryptoquant.com", "cryptoquant\\.com"),
   ("blofin.com", "blofin\\.com"),
   ("whop.com", "whop\\.com")]

/-- Reason-tag cleanup for a blocked phrase (main.py line 450). -/
def cleanPhrase (p : String) : String :=
  String.mk (pyReplaceChar '/' '_' (pyReplaceChar '.' '_'
    (pyDropChar (Char.ofNat 39) (pyReplaceChar ' ' '_' p.data))))

def dotReason (d : String) : String := String.mk (pyReplaceChar '.' '_' d.data)

def patReason (raw : String) : String :=
  String.mk (pyReplaceChar '\\' '_' (pyReplaceChar '.' '_' raw.data))

def phraseCheck (textLower : String) : Option String :=
  (blockedPhrases.find? (fun p => strContains textLower (pyLower p))).map
    (fun p => "blocked_phrase_" ++ cleanPhrase p)

def domainCheck (textLower : String) : Option String :=
  (blockedDomains.find? (fun d => strContains textLower (pyLower d))).map
    (fun d => "blocked_domain_" ++ dotReason d)

def patternCheck (textLower : String) : Option String :=
  (suspiciousPatterns.find? (fun pr => strContains textLower pr.1)).map
    (fun pr => "blocked_pattern_" ++ patReason pr.2)

/-- Media URL check (main.py lines 497-506): first media URL containing a
    blocked domain, inner loop in domain-list order. -/
def mediaCheck : List String → Option String
  | [] => none
  | u :: us =>
    match blockedDomains.find? (fun d => strContains (pyLower u) d) with
    | some d => some ("blocked_media_" ++ dotReason d)
    | none => mediaCheck us

/-- Body of should_skip_post (main.py lines 388-518), everything inside the
    try block, in source order: empty text, blocked phrases, blocked
    domains, suspicious patterns, emoji-only, link-only, blocked media,
    short content. -/
def shouldSkipBody (text : String) (media : List String) : Bool × String :=
  if pyStrip text == "" then (true, "empty_text")
  else
    let textLower := pyStrip (pyLower text)
    match phraseCheck textLower with
    | some r => (true, r)
    | none =>
      match domainCheck textLower with
      | some r => (true, r)
      | none =>
        match patternCheck textLower with
        | some r => (true, r)
        | none =>
          if isEmojiOnlyPost text then (true, "emoji_only")
          else if isLinkOnlyPost text then (true, "link_only")
          else
            match mediaCheck media with
            | some r => (true, r)
            | none =>
              if contentLen text < 15 then
                (true, "short_content_with_link_emoji")
              else (false, "normal")

/-- The try/except wrapper of should_skip_post (main.py lines 393, 520-524):
    any exception escaping the body resolves to a skip with the
    error-blocked reason.  The body is abstracted so the wrapper is stated
    for every possible body behaviour, the pure embedded body included. -/
def classifyWithGuard
    (core : String → List String → Except String (Bool × String))
    (text : String) (media : List String) : Bool × String :=
  match core text media with
  | Except.ok r => r
  | Except.error _ => (true, "error_blocked_for_safety")

/-- should_skip_post: the guarded classifier over the embedded body, which
    is pure and never raises. -/
def shouldSkipPost (text : String) (media : List String) : Bool × String :=
  classifyWithGuard (fun t m => Except.ok (shouldSkipBody t m)) text media

def lexLt : List Char → List Char → Bool
  | [], [] => false
  | [], _ :: _ => true
  | _ :: _, [] => false
  | a :: as, b :: bs =>
    if a.toNat < b.toNat then true
    else if b.toNat < a.toNat then false
    else lexLt as bs

/-- Python string comparison: lexicographic on code points. -/
def strLt (a b : String) : Bool := lexLt a.data b.data

def insertStr (x : String) : List String → List String
  | [] => [x]
  | y :: ys => if strLt x y then x :: y :: ys else y :: insertStr x ys

/-- Python sorted on strings (ascending, stable insertion sort). -/
def sortStrings : List String → List String
  | [] => []
  | x :: xs => insertStr x (sortStrings xs)

def joinBar : List String → String
  | [] => ""
  | [s] => s
  | s :: t :: r => s ++ "|" ++ joinBar (t :: r)

/-- generate_content_hash (main.py lines 272-277): strip, lower, append the
    sorted media URLs joined by a bar when the list is non-empty; the MD5
    digest is idealised as its preimage. -/
def generateContentHash (content : String) (media : List String) : String :=
  let base := pyLower (pyStrip content)
  if media.isEmpty then base else base ++ joinBar (sortStrings media)

def digitChar (d : Nat) : Char := Char.ofNat (48 + d)

def natDigitsAux : Nat → Nat → List Char
  | 0, _ => []
  | fuel + 1, n =>
    if n < 10 then [digitChar n]
    else natDigitsAux fuel (n / 10) ++ [digitChar (n % 10)]

def natToStr (n : Nat) : String := String.mk (natDigitsAux (n + 1) n)

def takeStr (n : Nat) (s : String) : String := String.mk (s.data.take n)

/-- generate_message_hash (main.py lines 58-61), MD5 idealised as its
    preimage: tweet id, first 100 characters of the content, media count. -/
def generateMessageHash (content : String) (media : List String)
    (tweetId : String) : String :=
  tweetId ++ "|" ++ takeStr 100 content ++ "|" ++ natToStr media.length

/-- is_truncated_tweet (main.py lines 1004-1033). -/
def isTruncatedTweet (text : String) : Bool :=
  let r := pyRstrip text
  let definite :=
    strEndsWith r "…" || strEndsWith r "..." ||
    strEndsWith r "…\n" || strEndsWith r "...\n" ||
    strContains text "Show this thread" || strContains text "Show more" ||
    strContains text "Read more" ||
    strEndsWith r "…\nhttps://t.co/" ||
    (strContains text "t.co/" && strEndsWith r "…")
  let suspicious :=
    decide (280 ≤ text.length) &&
    (strEndsWith r "…" || strEndsWith r "..." ||
     !(strEndsWith r ".") || !(strEndsWith r "!") || !(strEndsWith r "?"))
  definite || suspicious

/-- One row of the processed_tweets table (main.py lines 928-941), with the
    processed_at timestamp supplied by the caller of Save. -/
structure ProcessedRecord where
  tweet_id : String
  content : String
  translated : String
  created_at : Int
  url : String
  account_used : String
  content_hash : String
  conversation_id : String
  is_thread : Bool
  processed_at : Nat
deriving DecidableEq, Repr

/-- In-memory and durable state of the pipeline: the dedup sets, the
    watermark, the table, the processing-lock set, the translation cache
    and the sent-message dedup cache.  Python sets are modelled as lists
    with membership semantics (Save inserts only absent elements). -/
structure BotState where
  processed_tweets : List String
  processed_content_hashes : List String
  since_id : Option String
  db : List ProcessedRecord
  processing : List String
  translation_cache : List (String × String)
  sent_message_hashes : List String
  sent_messages : List String
deriving DecidableEq, Repr

def emptyState : BotState := ⟨[], [], none, [], [], [], [], []⟩

def setInsert (x : String) (l : List String) : List String :=
  if x ∈ l then l else x :: l

/-- save_processed_tweet (main.py lines 979-1002): upsert the row keyed by
    tweet id, add the id and the content hash to the in-memory sets, and
    set the watermark to the saved id for non-thread records. -/
def saveProcessedTweet (now : Nat) (s : BotState) (tweetId content translated : String)
    (createdAt : Int) (url accountUsed contentHash conversationId : String)
    (isThread : Bool) : BotState :=
  let rec0 : ProcessedRecord :=
    ⟨tweetId, content, translated, createdAt, url, accountUsed,
     contentHash, conversationId, isThread, now⟩
  { s with
    db := rec0 :: s.db.filter (fun r => r.tweet_id ≠ tweetId),
    processed_tweets := setInsert tweetId s.processed_tweets,
    processed_content_hashes := setInsert contentHash s.processed_content_hashes,
    since_id := if isThread then s.since_id else some tweetId }

/-- External collaborators of one process_tweet call, supplied as data:
    the self-interaction classification (network lookups), the extended
    content fetch, the translation backend (already collapsed with its
    original-text fallback), the relay delivery outcome, the formatted
    local time, the target account handle and the wall clock. -/
structure Oracles where
  isSelf : Bool × String × Option String
  expansion : Option String
  translate : String → String
  relayDelivered : Bool
  thaiTime : String
  user : String
  now : Nat

/-- translate_text (main.py lines 1113-1188) at the cache level: a cache
    hit returns the cached text, otherwise the backend result (or, on
    backend failure, the original text - both collapsed into the oracle)
    is cached and returned.  Cache keys are idealised from hash(text)
    to the text. -/
def translateText (o : Oracles) (s : BotState) (text : String) :
    String × BotState :=
  match s.translation_cache.lookup text with
  | some tr => (tr, s)
  | none =>
    let tr := o.translate text
    (tr, { s with translation_cache := (text, tr) :: s.translation_cache })

def maxSentCache : Nat := 100

/-- send_telegram_message (main.py lines 1224-1328) at the state level:
    duplicate message hashes short-circuit as delivered; the cache is
    trimmed when oversized (Python trims an arbitrary set order; the list
    order stands in for it); the media/text/fallback attempts are collapsed
    into the delivery oracle; the hash is recorded only on success. -/
def sendTelegram (o : Oracles) (s : BotState) (content : String)
    (media : List String) (tweetId : String) : Bool × BotState :=
  let mh := generateMessageHash content media tweetId
  if mh ∈ s.sent_message_hashes then (true, s)
  else
    let s1 :=
      if maxSentCache < s.sent_message_hashes.length then
        { s with sent_message_hashes := s.sent_message_hashes.take 50 }
      else s
    if o.relayDelivered then
      (true, { s1 with
               sent_message_hashes := setInsert mh s1.sent_message_hashes,
               sent_messages := s1.sent_messages ++ [content] })
    else (false, s1)

/-- A candidate post as process_tweet sees it: the media URLs are the ones
    the includes-extraction loop (main.py lines 1603-1612) produces. -/
structure Tweet where
  id : String
  text : String
  created_at : Int
  conversation_id : String
  note_tweet : Option String
  media : List String
deriving DecidableEq, Repr

def tweetUrl (user tweetId : String) : String :=
  "https://twitter.com/" ++ user ++ "/status/" ++ tweetId

/-- format_message_by_interaction_type (main.py lines 780-812). -/
def formatMessage (user : String) (t : Tweet) (translated thaiTime url : String)
    (itype : String) : String :=
  let q := String.mk [Char.ofNat 39]
  let truncated := isTruncatedTweet t.text
  let base :=
    if itype == "self_mention_pure" then
      "💬 <b>@" ++ user ++ " กล่าวถึงตัวเอง</b>\n\n" ++ translated
    else if itype == "self_mention_mixed" then
      "💬🔀 <b>@" ++ user ++ " กล่าวถึงตัวเองและผู้อื่น</b>\n\n" ++ translated
    else if itype == "self_retweet" then
      "🔄 <b>@" ++ user ++ " รีทวีตตัวเอง</b>\n\n" ++ translated
    else if itype == "self_retweet_legacy" then
      "🔄📜 <b>@" ++ user ++ " รีทวีตตัวเอง (แบบเก่า)</b>\n\n" ++ translated
    else if itype == "self_reply" then
      "↩️ <b>@" ++ user ++ " ตอบตัวเอง</b>\n\n" ++ translated
    else
      "𝕏 @" ++ user ++ "\n\n" ++ translated
  if truncated then
    base ++ "\n\n⏰ " ++ thaiTime ++ " | 𝕏 <a href=" ++ q ++ url ++ q ++
      ">อ่านเต็มที่ X</a>"
  else
    base ++ "\n\n⏰ " ++ thaiTime ++ " | 𝕏 <a href=" ++ q ++ url ++ q ++
      ">ที่มา</a>"

/-- Result of the content-expansion stage of process_tweet
    (main.py lines 1556-1598). -/
inductive ExpandOutcome where
  | blocked (content : String) (reason : String)
  | ok (content : String)
deriving DecidableEq, Repr

/-- Expansion stage: an attached note_tweet is used without re-filtering;
    otherwise a truncated text triggers the extended fetch (the oracle),
    and a strictly longer result is re-classified, a block there ending the
    pass. -/
def expandTweet (o : Oracles) (t : Tweet) : ExpandOutcome :=
  match t.note_tweet with
  | some nt => ExpandOutcome.ok nt
  | none =>
    if isTruncatedTweet t.text then
      match o.expansion with
      | some fc =>
        if t.text.length < fc.length then
          let sk := shouldSkipPost fc []
          if sk.1 then ExpandOutcome.blocked fc sk.2
          else ExpandOutcome.ok fc
        else ExpandOutcome.ok t.text
      | none => ExpandOutcome.ok t.text
    else ExpandOutcome.ok t.text

/-- Everything inside the try of process_tweet after the lock is taken
    (main.py lines 1523-1662): entry classification on the original text,
    expansion, classification with media, fingerprint duplicate check,
    translate, relay, save. -/
def processTweetBody (o : Oracles) (s : BotState) (t : Tweet)
    (accountId : String) : Bool × BotState :=
  let url := tweetUrl o.user t.id
  let sk0 := shouldSkipPost t.text []
  if sk0.1 then
    (true, saveProcessedTweet o.now s t.id t.text
      ("[ENTRY-BLOCKED-" ++ pyUpper sk0.2 ++ "]") t.created_at url accountId
      (generateContentHash t.text []) t.conversation_id false)
  else
    match expandTweet o t with
    | ExpandOutcome.blocked fc reasonE =>
      (true, saveProcessedTweet o.now s t.id fc
        ("[EXPANDED-BLOCKED-" ++ pyUpper reasonE ++ "]") t.created_at url
        accountId (generateContentHash fc []) t.conversation_id false)
    | ExpandOutcome.ok content =>
      let skM := shouldSkipPost content t.media
      if skM.1 then
        (true, saveProcessedTweet o.now s t.id content
          ("[MEDIA-BLOCKED-" ++ pyUpper skM.2 ++ "]") t.created_at url
          accountId (generateContentHash content t.media)
          t.conversation_id false)
      else
        let h := generateContentHash content t.media
        if h ∈ s.processed_content_hashes then (false, s)
        else
          let tr := translateText o s content
          let msg := formatMessage o.user t tr.1 o.thaiTime url o.isSelf.2.1
          let snd := sendTelegram o tr.2 msg t.media t.id
          (true, saveProcessedTweet o.now snd.2 t.id content tr.1
            t.created_at url accountId h t.conversation_id false)

/-- process_tweet (main.py lines 1510-1670): the entry guard on the
    in-memory processed set and the processing-lock set, the locked body,
    and the lock release on every path. -/
def processTweet (o : Oracles) (s : BotState) (t : Tweet)
    (accountId : String) : Bool × BotState :=
  if t.id ∈ s.processed_tweets then (false, s)
  else if t.id ∈ s.processing then (false, s)
  else
    let s1 := { s with processing := setInsert t.id s.processing }
    let r := processTweetBody o s1 t accountId
    (r.1, { r.2 with processing := r.2.processing.erase t.id })

/-- The entry-guard condition of process_tweet (main.py lines 1513, 1517):
    membership in the in-memory processed set or in the processing-lock
    set; the durable table is not consulted. -/
def guardBlocks (s : BotState) (tweetId : String) : Bool :=
  decide (tweetId ∈ s.processed_tweets) || decide (tweetId ∈ s.processing)

def insertPair (p : String × String) :
    List (String × String) → List (String × String)
  | [] => [p]
  | y :: ys => if strLt p.1 y.1 then p :: y :: ys else y :: insertPair p ys

/-- Python sorted of the translation-cache items by key (the hash of a
    string key is idealised as the key). -/
def sortPairs : List (String × String) → List (String × String)
  | [] => []
  | x :: xs => insertPair x (sortPairs xs)

/-- cleanup_memory (main.py lines 1704-1726): trim the translation cache
    to the 50 largest keys past 100 entries, the processed-tweet set to the
    500 largest ids past 1000, the content-hash set to the 1000 largest
    past 2000, and the sent-message cache to 50 entries past its cap
    (Python keeps an arbitrary 50 there; the newest 50 stand in for it). -/
def cleanupMemory (s : BotState) : BotState :=
  let cache :=
    if 100 < s.translation_cache.length then
      let sc := sortPairs s.translation_cache
      sc.drop (sc.length - 50)
    else s.translation_cache
  let pt :=
    if 1000 < s.processed_tweets.length then
      let st := sortStrings s.processed_tweets
      st.drop (st.length - 500)
    else s.processed_tweets
  let ph :=
    if 2000 < s.processed_content_hashes.length then
      let sh := sortStrings s.processed_content_hashes
      sh.drop (sh.length - 1000)
    else s.processed_content_hashes
  let sm :=
    if maxSentCache < s.sent_message_hashes.length then
      s.sent_message_hashes.take 50
    else s.sent_message_hashes
  { s with translation_cache := cache, processed_tweets := pt,
           processed_content_hashes := ph, sent_message_hashes := sm }

/-- is_tweet_too_old (main.py lines 279-286): strictly older than sixty
    minutes; timestamps in whole seconds. -/
def isTweetTooOld (now createdAt : Int) : Bool :=
  decide (60 * 60 < now - createdAt)

inductive FetchDecision where
  | accepted
  | alreadyProcessed
  | tooOld
  | otherInteraction
deriving DecidableEq, Repr

def selfTypes : List String :=
  ["self_mention_pure", "self_mention_mixed", "self_retweet",
   "self_retweet_legacy", "self_reply"]

/-- Per-tweet decision of the first filtering loop of fetch_tweets
    (main.py lines 1424-1458): already processed, then freshness, then the
    self-interaction gate; classification runs only on later stages.  The
    network-derived self-interaction triple and the reply/mention probes
    are supplied as data. -/
def fetchFilterTweet (now : Int) (processed : List String)
    (isSelfR : Bool × String × Option String)
    (replyToOthers mentionsOthersOnly : Bool) (t : Tweet) : FetchDecision :=
  if t.id ∈ processed then FetchDecision.alreadyProcessed
  else if isTweetTooOld now t.created_at then FetchDecision.tooOld
  else
    if isSelfR.1 then
      if isSelfR.2.1 ∈ selfTypes then FetchDecision.accepted
      else FetchDecision.otherInteraction
    else if isSelfR.2.1 == "normal" then
      if !replyToOthers && !mentionsOthersOnly then FetchDecision.accepted
      else FetchDecision.otherInteraction
    else FetchDecision.otherInteraction

/-- Mutable per-account statistics (main.py lines 96-108). -/
structure AccountStats where
  api_calls : Nat
  last_used : Nat
  rate_limited_until : Nat
  successful_calls : Nat
  failed_calls : Nat
  consecutive_failures : Nat
  total_rotation_time : Nat
  last_rotation : Nat
deriving DecidableEq, Repr

instance : Inhabited AccountStats := ⟨⟨0, 0, 0, 0, 0, 0, 0, 0⟩⟩

/-- An account is available when its rate-limit window has elapsed
    (main.py lines 145, 153, 218). -/
def availableAt (now : Nat) (st : AccountStats) : Bool :=
  decide (st.rate_limited_until ≤ now)

/-- get_best_available_account (main.py lines 135-164): twenty-minute time
    slots pick the preferred index; if it is rate-limited, the first
    available index in order; if none, index 0.  Stats are indexed in
    account order.  Assumes at least one account, as the source does
    (an empty account list would raise in Python). -/
def getBestAvailableAccount (now : Nat) (stats : List AccountStats) : Nat :=
  let n := stats.length
  let preferred := (now / 1200) % n
  if availableAt now (stats.getD preferred default) then preferred
  else
    match (List.range n).filter
        (fun i => availableAt now (stats.getD i default)) with
    | i :: _ => i
    | [] => 0

/-- Python range(a, b). -/
def pyRange (a b : Nat) : List Nat := (List.range (b - a)).map (a + ·)

/-- Account-rotator state: account ids in index order, the stats dict and
    the current index. -/
structure RotState where
  accounts : List String
  stats : List (String × AccountStats)
  current : Nat
deriving DecidableEq, Repr

def availIdx (now : Nat) (s : RotState) (i : Nat) : Bool :=
  match List.lookup (s.accounts.getD i "") s.stats with
  | some st => availableAt now st
  | none => true

/-- get_next_available_account (main.py lines 209-223): scan the indices
    after the current one cyclically, return the first available, else stay
    on the current index. -/
def getNextAvailableAccount (now : Nat) (s : RotState) (current : Nat) : Nat :=
  let n := s.accounts.length
  match (pyRange 1 n).find? (fun i => availIdx now s ((current + i) % n)) with
  | some i => (current + i) % n
  | none => current

def writeStats (l : List (String × AccountStats)) (aid : String)
    (st : AccountStats) : List (String × AccountStats) :=
  l.map (fun p => if p.1 = aid then (aid, st) else p)

/-- Body of update_account_stats (main.py lines 225-260) once the stats
    entry has been found: bump the call counter and last-used time, then
    the success or failure counters (success resets the consecutive-failure
    count), then either the rate-limit branch (cooldown of 1200 seconds
    plus rotation) or the three-consecutive-failures rotation. -/
def applyOutcome (now : Nat) (s : RotState) (aid : String)
    (success rateLimited : Bool) (st0 : AccountStats) : RotState :=
  let st1 := { st0 with api_calls := st0.api_calls + 1, last_used := now }
  let st2 :=
    if success then
      { st1 with successful_calls := st1.successful_calls + 1,
                 consecutive_failures := 0 }
    else
      { st1 with failed_calls := st1.failed_calls + 1,
                 consecutive_failures := st1.consecutive_failures + 1 }
  if rateLimited then
    let st3 := { st2 with rate_limited_until := now + 1200 }
    let s1 := { s with stats := writeStats s.stats aid st3 }
    { s1 with current := getNextAvailableAccount now s1 s1.current }
  else if 3 ≤ st2.consecutive_failures then
    let s1 := { s with stats := writeStats s.stats aid st2 }
    { s1 with current := getNextAvailableAccount now s1 s1.current }
  else { s with stats := writeStats s.stats aid st2 }

/-- update_account_stats: look up the account entry and apply the outcome;
    a missing account id raises KeyError in Python, which the enclosing
    except swallows before any mutation, so it is a no-op. -/
def updateAccountStats (now : Nat) (s : RotState) (aid : String)
    (success rateLimited : Bool) : RotState :=
  match List.lookup aid s.stats with
  | none => s
  | some st0 => applyOutcome now s aid success rateLimited st0

/-- Adjacent strict sortedness of a string list, the shape a Python
    sorted-set snapshot has. -/
def chainSorted : List String → Bool
  | [] => true
  | [_] => true
  | a :: b :: t => strLt a b && chainSorted (b :: t)

theorem lexLt_irrefl : ∀ l : List Char, lexLt l l = false := by
  intro l
  induction l with
  | nil => rfl
  | cons a as ih => simp [lexLt, ih]

theorem lexLt_trans : ∀ a b c : List Char,
    lexLt a b = true → lexLt b c = true → lexLt a c = true := by
  intro a
  induction a with
  | nil =>
    intro b c hab hbc
    cases b with
    | nil => simp [lexLt] at hab
    | cons x xs =>
      cases c with
      | nil => simp [lexLt] at hbc
      | cons y ys => rfl
  | cons a as ih =>
    intro b c hab hbc
    cases b with
    | nil => simp [lexLt] at hab
    | cons b bs =>
      cases c with
      | nil => simp [lexLt] at hbc
      | cons c cs =>
        simp only [lexLt] at hab hbc ⊢
        by_cases h1 : a.toNat < b.toNat
        · by_cases h2 : b.toNat < c.toNat
          · simp [Nat.lt_trans h1 h2]
          · by_cases h3 : c.toNat < b.toNat
            · simp [h2, h3] at hbc
            · have hbceq : b.toNat = c.toNat :=
                Nat.le_antisymm (Nat.not_lt.mp h3) (Nat.not_lt.mp h2)
              simp [hbceq ▸ h1]
        · by_cases h1' : b.toNat < a.toNat
          · simp [h1, h1'] at hab
          · have haeq : a.toNat = b.toNat :=
              Nat.le_antisymm (Nat.not_lt.mp h1') (Nat.not_lt.mp h1)
            have hab' : lexLt as bs = true := by simpa [h1, h1'] using hab
            by_cases h2 : b.toNat < c.toNat
            · simp [haeq ▸ h2]
            · by_cases h3 : c.toNat < b.toNat
              · simp [h2, h3] at hbc
              · have hbceq : b.toNat = c.toNat :=
                  Nat.le_antisymm (Nat.not_lt.mp h3) (Nat.not_lt.mp h2)
                have hbc' : lexLt bs cs = true := by simpa [h2, h3] using hbc
                have hac : a.toNat = c.toNat := haeq.trans hbceq
                have hnc : ¬a.toNat < c.toNat := by omega
                have hnc' : ¬c.toNat < a.toNat := by omega
                simp [hnc, hnc', ih bs cs hab' hbc']

theorem strLt_irrefl (s : String) : strLt s s = false := lexLt_irrefl s.data

theorem strLt_trans {a b c : String} (h1 : strLt a b = true)
    (h2 : strLt b c = true) : strLt a c = true :=
  lexLt_trans a.data b.data c.data h1 h2

theorem chainSorted_pairwise : ∀ l : List String, chainSorted l = true →
    List.Pairwise (fun a b => strLt a b = true) l := by
  intro l
  induction l with
  | nil => intro _; exact List.Pairwise.nil
  | cons a t ih =>
    cases t with
    | nil => intro _; simp
    | cons b t2 =>
      intro h
      have h12 : strLt a b = true ∧ chainSorted (b :: t2) = true := by
        simpa [chainSorted, Bool.and_eq_true] using h
      have hp := ih h12.2
      refine List.Pairwise.cons ?_ hp
      intro x hx
      rcases List.mem_cons.mp hx with rfl | hx2
      · exact h12.1
      · exact strLt_trans h12.1 ((List.pairwise_cons.mp hp).1 x hx2)

theorem sortStrings_eq_self : ∀ l : List String, chainSorted l = true →
    sortStrings l = l := by
  intro l
  induction l with
  | nil => intro _; rfl
  | cons a t ih =>
    cases t with
    | nil => intro _; rfl
    | cons b t2 =>
      intro h
      have h12 : strLt a b = true ∧ chainSorted (b :: t2) = true := by
        simpa [chainSorted, Bool.and_eq_true] using h
      have hstep : sortStrings (a :: b :: t2) = insertStr a (sortStrings (b :: t2)) := rfl
      rw [hstep, ih h12.2]
      simp [insertStr, h12.1]

theorem filter_head_first {p : Nat → Bool} : ∀ l : List Nat,
    List.Pairwise (· < ·) l → ∀ r rest, l.filter p = r :: rest →
    p r = true ∧ r ∈ l ∧ ∀ j ∈ l, j < r → p j = false := by
  intro l
  induction l with
  | nil => intro _ r rest h; simp at h
  | cons a t ih =>
    intro hp r rest h
    have hpt := (List.pairwise_cons.mp hp).2
    have hlt := (List.pairwise_cons.mp hp).1
    rw [List.filter_cons] at h
    by_cases hpa : p a = true
    · rw [if_pos hpa] at h
      obtain ⟨rfl, _⟩ : a = r ∧ t.filter p = rest := by
        constructor
        · exact (List.cons.injEq _ _ _ _ ▸ h).1
        · exact (List.cons.injEq _ _ _ _ ▸ h).2
      refine ⟨hpa, List.mem_cons_self _ _, ?_⟩
      intro j hj hjr
      rcases List.mem_cons.mp hj with rfl | hj2
      · omega
      · exact absurd (hlt j hj2) (by omega)
    · rw [if_neg hpa] at h
      obtain ⟨h1, h2, h3⟩ := ih hpt r rest h
      refine ⟨h1, List.mem_cons_of_mem _ h2, ?_⟩
      intro j hj hjr
      rcases List.mem_cons.mp hj with rfl | hj2
      · exact Bool.of_not_eq_true hpa
      · exact h3 j hj2 hjr

theorem lookup_writeStats :
    ∀ (l : List (String × AccountStats)) (aid : String) (st st0 : AccountStats),
    List.lookup aid l = some st0 →
    List.lookup aid (writeStats l aid st) = some st := by
  intro l aid st
  induction l with
  | nil => intro st0 h; simp [List.lookup] at h
  | cons p t ih =>
    intro st0 h
    obtain ⟨k, v⟩ := p
    by_cases hk : k = aid
    · subst hk
      have hw : writeStats ((k, v) :: t) k st = (k, st) :: writeStats t k st := by
        simp [writeStats]
      rw [hw]
      simp [List.lookup]
    · have hne : (aid == k) = false := beq_eq_false_iff_ne.mpr (Ne.symm hk)
      simp only [List.lookup, hne] at h
      have hw : writeStats ((k, v) :: t) aid st = (k, v) :: writeStats t aid st := by
        simp [writeStats, hk]
      rw [hw]
      simp only [List.lookup, hne]
      exact ih st0 h

/-- C1: if the post id is already recorded in the in-memory processed set
    or already held by the processing-lock set, process_tweet aborts
    immediately with return value False and a completely unchanged state:
    no record is written, no message is relayed, no lock is taken, so a
    post seen again in a later fetch cycle short-circuits at the entry
    guard. -/
theorem C1_entry_guard_aborts (o : Oracles) (s : BotState) (t : Tweet)
    (accountId : String)
    (h : t.id ∈ s.processed_tweets ∨ t.id ∈ s.processing) :
    processTweet o s t accountId = (false, s) := by
  unfold processTweet
  rcases h with h | h
  · simp [h]
  · by_cases h2 : t.id ∈ s.processed_tweets
    · simp [h2]
    · simp [h2, h]

def c1State : BotState := { emptyState with processed_tweets := ["100"] }

def c1Tweet : Tweet := ⟨"100", "a tweet seen in an earlier cycle", 0, "c", none, []⟩

def c1Oracles : Oracles :=
  ⟨(false, "normal", none), none, fun x => x, true, "01/01 00:00", "target", 7⟩

theorem C1_witness :
    ("100" ∈ c1State.processed_tweets ∨ "100" ∈ c1State.processing) ∧
    processTweet c1Oracles c1State c1Tweet "account_1" = (false, c1State) :=
  ⟨Or.inl (by decide),
   C1_entry_guard_aborts c1Oracles c1State c1Tweet "account_1"
     (Or.inl (by decide))⟩

/-- C2: the classifier wrapper is total and deterministic for every text
    and media input and for every behaviour of the wrapped body - it
    returns exactly one (skip, reason) pair, a raising body resolves to a
    skip with the error-blocked reason (fail closed), a returning body
    passes its pair through - and the deployed classifier is the wrapper
    around the pure embedded body. -/
theorem C2_classifier_total_fail_closed
    (core : String → List String → Except String (Bool × String))
    (text : String) (media : List String) :
    (∃! r : Bool × String, classifyWithGuard core text media = r) ∧
    (∀ e, core text media = Except.error e →
      classifyWithGuard core text media = (true, "error_blocked_for_safety")) ∧
    (∀ p, core text media = Except.ok p →
      classifyWithGuard core text media = p) ∧
    shouldSkipPost text media = shouldSkipBody text media := by
  refine ⟨⟨classifyWithGuard core text media, rfl, fun y hy => hy.symm⟩, ?_, ?_, rfl⟩
  · intro e he
    simp [classifyWithGuard, he]
  · intro p hp
    simp [classifyWithGuard, hp]

theorem C2_witness :
    ((fun (_ : String) (_ : List String) =>
        (Except.error "boom" : Except String (Bool × String))) "gm" []
      = Except.error "boom") ∧
    classifyWithGuard (fun _ _ => Except.error "boom") "gm" []
      = (true, "error_blocked_for_safety") :=
  ⟨rfl,
   (C2_classifier_total_fail_closed (fun _ _ => Except.error "boom") "gm" []).2.1
     "boom" rfl⟩

def c3Oracles : Oracles :=
  ⟨(false, "normal", none), none, fun x => x, true, "01/01 00:00", "target", 5⟩

def c3Post1 : Tweet :=
  ⟨"1001", "HTTPS://T.CO/ABCDEFGHIJKLMNOP hello", 0, "cv1", none, []⟩

def c3Post2 : Tweet :=
  ⟨"1002", "https://t.co/abcdefghijklmnop hello", 0, "cv2", none, []⟩

def c3State1 : BotState := (processTweet c3Oracles emptyState c3Post1 "account_1").2

/-- C3 counterexample: the first post (upper-case URL) passes the filters
    and is relayed, storing its fingerprint.  The second post has the same
    fingerprint (fingerprints lowercase the text) and a different id, yet
    it is not skipped as a duplicate without a write: the classifier, whose
    short-content URL removal is case-sensitive, blocks it at entry, and a
    new tagged record is written for it. -/
theorem C3_counterexample :
    generateContentHash c3Post2.text [] ∈ c3State1.processed_content_hashes ∧
    generateContentHash c3Post2.text [] = generateContentHash c3Post1.text [] ∧
    c3State1.sent_messages.length = 1 ∧
    (processTweet c3Oracles c3State1 c3Post2 "account_1").2.db.length
      = c3State1.db.length + 1 ∧
    ((processTweet c3Oracles c3State1 c3Post2 "account_1").2.db.head?.map
        (fun r => r.translated))
      = some "[ENTRY-BLOCKED-SHORT_CONTENT_WITH_LINK_EMOJI]" := by
  decide

/-- C3 (amended): once a fingerprint is recorded, a subsequent post with
    that fingerprint that reaches the duplicate check - it passes the entry
    classification, its expansion stage ends without a block, and it passes
    the classification with media - is skipped with no new record, no relay
    and no state change at all; a same-fingerprint post that the classifier
    itself blocks is instead recorded with a tagged skip record. -/
theorem C3_duplicate_fingerprint_skips (o : Oracles) (s : BotState) (t : Tweet)
    (accountId content r0 r1 : String)
    (hg1 : t.id ∉ s.processed_tweets)
    (hg2 : t.id ∉ s.processing)
    (hsk0 : shouldSkipPost t.text [] = (false, r0))
    (hexp : expandTweet o t = ExpandOutcome.ok content)
    (hskM : shouldSkipPost content t.media = (false, r1))
    (hdup : generateContentHash content t.media ∈ s.processed_content_hashes) :
    processTweet o s t accountId = (false, s) := by
  have hbody : processTweetBody o
      { s with processing := setInsert t.id s.processing } t accountId
      = (false, { s with processing := setInsert t.id s.processing }) := by
    unfold processTweetBody
    simp only [hsk0, hexp, hskM]
    simp [hdup]
  have herase : (setInsert t.id s.processing).erase t.id = s.processing := by
    simp [setInsert, hg2]
  unfold processTweet
  rw [if_neg hg1, if_neg hg2]
  simp only [hbody, herase]

def c3Post3 : Tweet :=
  ⟨"1003", "HTTPS://T.CO/ABCDEFGHIJKLMNOP hello", 0, "cv3", none, []⟩

theorem C3_witness :
    ("1003" ∉ c3State1.processed_tweets) ∧
    ("1003" ∉ c3State1.processing) ∧
    shouldSkipPost c3Post3.text [] = (false, "normal") ∧
    expandTweet c3Oracles c3Post3 = ExpandOutcome.ok c3Post3.text ∧
    (generateContentHash c3Post3.text [] ∈ c3State1.processed_content_hashes) ∧
    processTweet c3Oracles c3State1 c3Post3 "account_1" = (false, c3State1) :=
  ⟨by decide, by decide, by decide, by decide, by decide,
   C3_duplicate_fingerprint_skips c3Oracles c3State1 c3Post3 "account_1"
     c3Post3.text "normal" "normal" (by decide) (by decide) (by decide)
     (by decide) (by decide) (by decide)⟩

/-- C4 counterexample: for a post whose text is emoji-only and whose media
    URL matches a denylisted domain, the classifier returns the emoji-only
    reason, not the blocked-media one, although the media rule would fire
    on this input - so the media check does not precede the emoji check. -/
theorem C4_counterexample :
    shouldSkipPost "🚀" ["https://cryptoquant.com/a.png"]
      = (true, "emoji_only") ∧
    mediaCheck ["https://cryptoquant.com/a.png"]
      = some "blocked_media_cryptoquant_com" ∧
    (shouldSkipPost "🚀" ["https://cryptoquant.com/a.png"]).2
      ≠ "blocked_media_cryptoquant_com" := by
  decide

/-- C4 (amended): the classifier applies its skip rules in the fixed source
    order - empty text, blocked phrase, blocked domain, blocked URL
    pattern, emoji-only, link-only, blocked media URL, too short - with
    first match wins; in particular, a post passing the text checks whose
    text is emoji-only is classified emoji_only whatever its media URLs,
    because the emoji-only check precedes the media-URL check. -/
theorem C4_emoji_precedes_media (text : String) (media : List String)
    (h0 : (pyStrip text == "") = false)
    (h1 : phraseCheck (pyStrip (pyLower text)) = none)
    (h2 : domainCheck (pyStrip (pyLower text)) = none)
    (h3 : patternCheck (pyStrip (pyLower text)) = none)
    (h4 : isEmojiOnlyPost text = true) :
    shouldSkipPost text media = (true, "emoji_only") := by
  have hpost : shouldSkipPost text media = shouldSkipBody text media := rfl
  rw [hpost]
  unfold shouldSkipBody
  simp [h0, h1, h2, h3, h4]

theorem C4_witness :
    ((pyStrip "🚀" == "") = false) ∧
    phraseCheck (pyStrip (pyLower "🚀")) = none ∧
    domainCheck (pyStrip (pyLower "🚀")) = none ∧
    patternCheck (pyStrip (pyLower "🚀")) = none ∧
    isEmojiOnlyPost "🚀" = true ∧
    shouldSkipPost "🚀" ["https://cryptoquant.com/a.png", "https://x.com/a.png"]
      = (true, "emoji_only") :=
  ⟨by decide, by decide, by decide, by decide, by decide,
   C4_emoji_precedes_media "🚀"
     ["https://cryptoquant.com/a.png", "https://x.com/a.png"]
     (by decide) (by decide) (by decide) (by decide) (by decide)⟩

def c5s1 : BotState :=
  saveProcessedTweet 1 emptyState "200" "older content" "translated a" 0
    "u1" "account_1" "hash-a" "cv" false

def c5s2 : BotState :=
  saveProcessedTweet 2 c5s1 "100" "newer content" "translated b" 0
    "u2" "account_1" "hash-b" "cv" false

/-- C5 counterexample: a Save of a non-thread record with a lower post id
    after one with a higher id rewinds the watermark from 200 to 100 - the
    watermark is a last-write, not a maximum, so it is not monotonic and
    does not always equal the highest saved id. -/
theorem C5_counterexample :
    c5s1.since_id = some "200" ∧ c5s2.since_id = some "100" ∧
    strLt "100" "200" = true ∧ (100 : Nat) < 200 := by
  decide

/-- C5 (amended): a Save of a non-thread record sets the watermark to that
    record's post id unconditionally - no maximum is taken, so a lower id
    saved after a higher one rewinds it - and a Save of a
    thread-continuation record leaves the watermark unchanged. -/
theorem C5_save_sets_watermark (now : Nat) (s : BotState)
    (tweetId content translated : String) (createdAt : Int)
    (url accountUsed contentHash conversationId : String) :
    (saveProcessedTweet now s tweetId content translated createdAt url
        accountUsed contentHash conversationId false).since_id = some tweetId ∧
    (saveProcessedTweet now s tweetId content translated createdAt url
        accountUsed contentHash conversationId true).since_id = s.since_id :=
  ⟨rfl, rfl⟩

/-- C6: account selection - the preferred account of the twenty-minute time
    slot is returned when it is not rate-limited; otherwise the first
    account in index order that is not rate-limited; when every account is
    rate-limited, account 0 regardless of its state; hence with three
    accounts, account 0 rate-limited and some other account available, the
    selection is account 1 or account 2, never account 0. -/
theorem C6_account_selection (now : Nat) (stats : List AccountStats)
    (hn : 0 < stats.length) :
    (availableAt now (stats.getD ((now / 1200) % stats.length) default) = true →
      getBestAvailableAccount now stats = (now / 1200) % stats.length) ∧
    (availableAt now (stats.getD ((now / 1200) % stats.length) default) = false →
      ∀ i, i < stats.length →
        availableAt now (stats.getD i default) = true →
        (availableAt now
            (stats.getD (getBestAvailableAccount now stats) default) = true ∧
         getBestAvailableAccount now stats < stats.length ∧
         ∀ j, j < getBestAvailableAccount now stats →
           availableAt now (stats.getD j default) = false)) ∧
    ((∀ i, i < stats.length → availableAt now (stats.getD i default) = false) →
      getBestAvailableAccount now stats = 0) ∧
    (stats.length = 3 →
      availableAt now (stats.getD 0 default) = false →
      (availableAt now (stats.getD 1 default) = true ∨
       availableAt now (stats.getD 2 default) = true) →
      (getBestAvailableAccount now stats = 1 ∨
       getBestAvailableAccount now stats = 2)) := by
  have hpref : (now / 1200) % stats.length < stats.length := Nat.mod_lt _ hn
  have key1 :
      availableAt now (stats.getD ((now / 1200) % stats.length) default) = true →
      getBestAvailableAccount now stats = (now / 1200) % stats.length := by
    intro h
    unfold getBestAvailableAccount
    rw [if_pos h]
  have key2 :
      availableAt now (stats.getD ((now / 1200) % stats.length) default) = false →
      ∀ i, i < stats.length →
        availableAt now (stats.getD i default) = true →
        (availableAt now
            (stats.getD (getBestAvailableAccount now stats) default) = true ∧
         getBestAvailableAccount now stats < stats.length ∧
         ∀ j, j < getBestAvailableAccount now stats →
           availableAt now (stats.getD j default) = false) := by
    intro h i hi hpi
    unfold getBestAvailableAccount
    rw [if_neg (by rw [h]; exact Bool.false_ne_true)]
    cases hfil : (List.range stats.length).filter
        (fun k => availableAt now (stats.getD k default)) with
    | nil =>
      exfalso
      have : i ∈ (List.range stats.length).filter
          (fun k => availableAt now (stats.getD k default)) :=
        List.mem_filter.mpr ⟨List.mem_range.mpr hi, hpi⟩
      rw [hfil] at this
      exact absurd this (List.not_mem_nil i)
    | cons r rest =>
      obtain ⟨h1, h2, h3⟩ :=
        filter_head_first (List.range stats.length)
          (List.pairwise_lt_range stats.length) r rest hfil
      have hr : r < stats.length := List.mem_range.mp h2
      exact ⟨h1, hr, fun j hj =>
        h3 j (List.mem_range.mpr (Nat.lt_trans hj hr)) hj⟩
  have key3 :
      (∀ i, i < stats.length → availableAt now (stats.getD i default) = false) →
      getBestAvailableAccount now stats = 0 := by
    intro hall
    unfold getBestAvailableAccount
    rw [if_neg (by rw [hall _ hpref]; exact Bool.false_ne_true)]
    have hfil : (List.range stats.length).filter
        (fun k => availableAt now (stats.getD k default)) = [] := by
      rw [List.filter_eq_nil_iff]
      intro a ha
      rw [hall a (List.mem_range.mp ha)]
      exact Bool.false_ne_true
    rw [hfil]
  refine ⟨key1, key2, key3, ?_⟩
  intro h3 h0 hor
  by_cases hp : availableAt now
      (stats.getD ((now / 1200) % stats.length) default) = true
  · have hres := key1 hp
    have hne : (now / 1200) % stats.length ≠ 0 := by
      intro hz
      rw [hz] at hp
      rw [h0] at hp
      exact absurd hp (by simp)
    have : (now / 1200) % stats.length < 3 := h3 ▸ hpref
    omega
  · have hp' : availableAt now
        (stats.getD ((now / 1200) % stats.length) default) = false :=
      Bool.of_not_eq_true hp
    have hex : ∃ i, i < stats.length ∧
        availableAt now (stats.getD i default) = true := by
      rcases hor with h | h
      · exact ⟨1, by omega, h⟩
      · exact ⟨2, by omega, h⟩
    obtain ⟨i, hi, hpi⟩ := hex
    obtain ⟨havail, hlt, _⟩ := key2 hp' i hi hpi
    have hne : getBestAvailableAccount now stats ≠ 0 := by
      intro hz
      rw [hz] at havail
      rw [h0] at havail
      exact absurd havail (by simp)
    have : getBestAvailableAccount now stats < 3 := h3 ▸ hlt
    omega

def c6Stats : List AccountStats :=
  [{ (default : AccountStats) with rate_limited_until := 100 },
   (default : AccountStats), (default : AccountStats)]

theorem C6_witness :
    (0 < c6Stats.length) ∧
    c6Stats.length = 3 ∧
    availableAt 10 (c6Stats.getD 0 default) = false ∧
    availableAt 10 (c6Stats.getD 1 default) = true ∧
    (getBestAvailableAccount 10 c6Stats = 1 ∨
     getBestAvailableAccount 10 c6Stats = 2) :=
  ⟨by decide, by decide, by decide, by decide,
   (C6_account_selection 10 c6Stats (by decide)).2.2.2 (by decide) (by decide)
     (Or.inl (by decide))⟩

/-- C7: outcome reporting - every report increments the call counter; a
    success increments the success counter and zeroes the consecutive-
    failure count; a failure increments the failure and consecutive-failure
    counts; a rate-limited report sets the cooldown to now plus 1200
    seconds and rotates the current index to the next available account;
    three or more consecutive failures without a rate-limit signal also
    rotate. -/
theorem C7_outcome_reporting (now : Nat) (s : RotState) (aid : String)
    (success rateLimited : Bool) (st0 : AccountStats)
    (h : List.lookup aid s.stats = some st0) :
    ∃ st1 : AccountStats,
      List.lookup aid
        (updateAccountStats now s aid success rateLimited).stats = some st1 ∧
      st1.api_calls = st0.api_calls + 1 ∧
      (success = true → st1.successful_calls = st0.successful_calls + 1 ∧
        st1.consecutive_failures = 0) ∧
      (success = false → st1.failed_calls = st0.failed_calls + 1 ∧
        st1.consecutive_failures = st0.consecutive_failures + 1) ∧
      (rateLimited = true → st1.rate_limited_until = now + 1200 ∧
        (updateAccountStats now s aid success rateLimited).current
          = getNextAvailableAccount now
              ⟨s.accounts, writeStats s.stats aid st1, s.current⟩ s.current) ∧
      (rateLimited = false → 3 ≤ st1.consecutive_failures →
        (updateAccountStats now s aid success rateLimited).current
          = getNextAvailableAccount now
              ⟨s.accounts, writeStats s.stats aid st1, s.current⟩ s.current) := by
  have hstep : updateAccountStats now s aid success rateLimited
      = applyOutcome now s aid success rateLimited st0 := by
    unfold updateAccountStats
    rw [h]
  rw [hstep]
  cases rateLimited with
  | true =>
    cases success with
    | true =>
      have hred : applyOutcome now s aid true true st0
          = { accounts := s.accounts,
              stats := writeStats s.stats aid
                { st0 with
                  api_calls := st0.api_calls + 1, last_used := now,
                  successful_calls := st0.successful_calls + 1,
                  consecutive_failures := 0, rate_limited_until := now + 1200 },
              current := getNextAvailableAccount now
                ⟨s.accounts,
                 writeStats s.stats aid
                  { st0 with
                    api_calls := st0.api_calls + 1, last_used := now,
                    successful_calls := st0.successful_calls + 1,
                    consecutive_failures := 0,
                    rate_limited_until := now + 1200 },
                 s.current⟩ s.current } := by
        simp [applyOutcome]
      rw [hred]
      refine ⟨_, lookup_writeStats s.stats aid _ st0 h, ?_, ?_, ?_, ?_, ?_⟩
      · rfl
      · intro _; exact ⟨rfl, rfl⟩
      · intro hf; exact absurd hf (by decide)
      · intro _; exact ⟨rfl, rfl⟩
      · intro hf; exact absurd hf (by decide)
    | false =>
      have hred : applyOutcome now s aid false true st0
          = { accounts := s.accounts,
              stats := writeStats s.stats aid
                { st0 with
                  api_calls := st0.api_calls + 1, last_used := now,
                  failed_calls := st0.failed_calls + 1,
                  consecutive_failures := st0.consecutive_failures + 1,
                  rate_limited_until := now + 1200 },
              current := getNextAvailableAccount now
                ⟨s.accounts,
                 writeStats s.stats aid
                  { st0 with
                    api_calls := st0.api_calls + 1, last_used := now,
                    failed_calls := st0.failed_calls + 1,
                    consecutive_failures := st0.consecutive_failures + 1,
                    rate_limited_until := now + 1200 },
                 s.current⟩ s.current } := by
        simp [applyOutcome]
      rw [hred]
      refine ⟨_, lookup_writeStats s.stats aid _ st0 h, ?_, ?_, ?_, ?_, ?_⟩
      · rfl
      · intro hf; exact absurd hf (by decide)
      · intro _; exact ⟨rfl, rfl⟩
      · intro _; exact ⟨rfl, rfl⟩
      · intro hf; exact absurd hf (by decide)
  | false =>
    cases success with
    | true =>
      have hred : applyOutcome now s aid true false st0
          = { accounts := s.accounts,
              stats := writeStats s.stats aid
                { st0 with
                  api_calls := st0.api_calls + 1, last_used := now,
                  successful_calls := st0.successful_calls + 1,
                  consecutive_failures := 0 },
              current := s.current } := by
        simp [applyOutcome]
      rw [hred]
      refine ⟨_, lookup_writeStats s.stats aid _ st0 h, ?_, ?_, ?_, ?_, ?_⟩
      · rfl
      · intro _; exact ⟨rfl, rfl⟩
      · intro hf; exact absurd hf (by decide)
      · intro hf; exact absurd hf (by decide)
      · intro _ hc; simp at hc
    | false =>
      by_cases h3 : 3 ≤ st0.consecutive_failures + 1
      · have hred : applyOutcome now s aid false false st0
            = { accounts := s.accounts,
                stats := writeStats s.stats aid
                  { st0 with
                    api_calls := st0.api_calls + 1, last_used := now,
                    failed_calls := st0.failed_calls + 1,
                    consecutive_failures := st0.consecutive_failures + 1 },
                current := getNextAvailableAccount now
                  ⟨s.accounts,
                   writeStats s.stats aid
                    { st0 with
                    api_calls := st0.api_calls + 1,
                    last_used := now, failed_calls := st0.failed_calls + 1,
                    consecutive_failures := st0.consecutive_failures + 1 },
                   s.current⟩ s.current } := by
          simp [applyOutcome, h3]
        rw [hred]
        refine ⟨_, lookup_writeStats s.stats aid _ st0 h, ?_, ?_, ?_, ?_, ?_⟩
        · rfl
        · intro hf; exact absurd hf (by decide)
        · intro _; exact ⟨rfl, rfl⟩
        · intro hf; exact absurd hf (by decide)
        · intro _ _; rfl
      · have hred : applyOutcome now s aid false false st0
            = { accounts := s.accounts,
                stats := writeStats s.stats aid
                  { st0 with
                    api_calls := st0.api_calls + 1, last_used := now,
                    failed_calls := st0.failed_calls + 1,
                    consecutive_failures := st0.consecutive_failures + 1 },
                current := s.current } := by
          simp [applyOutcome, h3]
        rw [hred]
        refine ⟨_, lookup_writeStats s.stats aid _ st0 h, ?_, ?_, ?_, ?_, ?_⟩
        · rfl
        · intro hf; exact absurd hf (by decide)
        · intro _; exact ⟨rfl, rfl⟩
        · intro hf; exact absurd hf (by decide)
        · intro _ hc; exact absurd hc h3

def c7State : RotState :=
  ⟨["account_1", "account_2"],
   [("account_1", (default : AccountStats)), ("account_2", (default : AccountStats))], 0⟩

theorem C7_witness :
    List.lookup "account_1" c7State.stats = some (default : AccountStats) ∧
    ∃ st1 : AccountStats,
      List.lookup "account_1"
        (updateAccountStats 10 c7State "account_1" false true).stats = some st1 ∧
      st1.api_calls = (default : AccountStats).api_calls + 1 ∧
      (false = true → st1.successful_calls
          = (default : AccountStats).successful_calls + 1 ∧
        st1.consecutive_failures = 0) ∧
      (false = false → st1.failed_calls
          = (default : AccountStats).failed_calls + 1 ∧
        st1.consecutive_failures
          = (default : AccountStats).consecutive_failures + 1) ∧
      (true = true → st1.rate_limited_until = 10 + 1200 ∧
        (updateAccountStats 10 c7State "account_1" false true).current
          = getNextAvailableAccount 10
              ⟨c7State.accounts, writeStats c7State.stats "account_1" st1,
               c7State.current⟩ c7State.current) ∧
      (true = false → 3 ≤ st1.consecutive_failures →
        (updateAccountStats 10 c7State "account_1" false true).current
          = getNextAvailableAccount 10
              ⟨c7State.accounts, writeStats c7State.stats "account_1" st1,
               c7State.current⟩ c7State.current) :=
  ⟨by decide,
   C7_outcome_reporting 10 c7State "account_1" false true
     (default : AccountStats) (by decide)⟩

/-- C8: a post is rejected as too old, in the fetch-stage filter that runs
    before any classification, exactly when its age strictly exceeds sixty
    minutes; a post created exactly sixty minutes ago is on the accepted
    side of the cutoff. -/
theorem C8_freshness_cutoff (now createdAt : Int) :
    (isTweetTooOld now createdAt = true ↔ 60 * 60 < now - createdAt) ∧
    (now - createdAt = 60 * 60 → isTweetTooOld now createdAt = false) ∧
    (∀ (processed : List String) (isSelfR : Bool × String × Option String)
        (r m : Bool) (t : Tweet),
      t.id ∉ processed → t.created_at = createdAt →
      isTweetTooOld now createdAt = true →
      fetchFilterTweet now processed isSelfR r m t = FetchDecision.tooOld) := by
  refine ⟨?_, ?_, ?_⟩
  · simp [isTweetTooOld]
  · intro h
    simp [isTweetTooOld, h]
  · intro processed isSelfR r m t hmem hc htoo
    unfold fetchFilterTweet
    rw [if_neg hmem, hc, if_pos htoo]

theorem C8_witness :
    (7200 - 3600 = (60 * 60 : Int)) ∧
    isTweetTooOld 7200 3600 = false ∧
    ((⟨"9", "x", 3599, "c", none, []⟩ : Tweet).id ∉ ([] : List String)) ∧
    isTweetTooOld 7200 3599 = true ∧
    fetchFilterTweet 7200 [] (false, "normal", none) false false
      ⟨"9", "x", 3599, "c", none, []⟩ = FetchDecision.tooOld :=
  ⟨by decide, (C8_freshness_cutoff 7200 3600).2.1 (by decide), by decide,
   by decide,
   (C8_freshness_cutoff 7200 3599).2.2 [] (false, "normal", none) false false
     ⟨"9", "x", 3599, "c", none, []⟩ (by decide) rfl (by decide)⟩

theorem translateText_db (o : Oracles) (s : BotState) (text : String) :
    (translateText o s text).2.db = s.db := by
  unfold translateText
  split
  · rfl
  · rfl

theorem sendTelegram_db (o : Oracles) (s : BotState) (content : String)
    (media : List String) (tweetId : String) :
    (sendTelegram o s content media tweetId).2.db = s.db := by
  unfold sendTelegram
  by_cases h1 : generateMessageHash content media tweetId ∈ s.sent_message_hashes
  · rw [if_pos h1]
  · rw [if_neg h1]
    by_cases h2 : maxSentCache < s.sent_message_hashes.length
    · rw [if_pos h2]
      by_cases h3 : o.relayDelivered = true
      · rw [if_pos h3]
      · rw [if_neg h3]
    · rw [if_neg h2]
      by_cases h3 : o.relayDelivered = true
      · rw [if_pos h3]
      · rw [if_neg h3]

/-- C9: a post that reaches the relaying step - it passes the entry guard,
    the entry classification, the expansion stage and the classification
    with media, and its fingerprint is new - has its ProcessedRecord
    written to the store whatever the relay outcome: for both delivery
    outcomes the call reports success and the store holds the new record,
    keyed by the post id, in front of the previous rows. -/
theorem C9_record_written_regardless (o : Oracles) (s : BotState) (t : Tweet)
    (accountId content r0 r1 : String)
    (hg1 : t.id ∉ s.processed_tweets)
    (hg2 : t.id ∉ s.processing)
    (hsk0 : shouldSkipPost t.text [] = (false, r0))
    (hexp : expandTweet o t = ExpandOutcome.ok content)
    (hskM : shouldSkipPost content t.media = (false, r1))
    (hnew : generateContentHash content t.media ∉ s.processed_content_hashes) :
    ∀ b : Bool,
      (processTweet { o with relayDelivered := b } s t accountId).1 = true ∧
      (processTweet { o with relayDelivered := b } s t accountId).2.db
        = ProcessedRecord.mk t.id content
            (translateText o { s with processing := setInsert t.id s.processing }
              content).1
            t.created_at (tweetUrl o.user t.id) accountId
            (generateContentHash content t.media) t.conversation_id false o.now
          :: s.db.filter (fun r => r.tweet_id ≠ t.id) := by
  intro b
  have hexp' : expandTweet { o with relayDelivered := b } t
      = ExpandOutcome.ok content := hexp
  have hbody : processTweetBody { o with relayDelivered := b }
      { s with processing := setInsert t.id s.processing } t accountId
      = (true,
         saveProcessedTweet o.now
           (sendTelegram { o with relayDelivered := b }
             (translateText o
               { s with processing := setInsert t.id s.processing } content).2
             (formatMessage o.user t
               (translateText o
                 { s with processing := setInsert t.id s.processing } content).1
               o.thaiTime (tweetUrl o.user t.id) o.isSelf.2.1)
             t.media t.id).2
           t.id content
           (translateText o
             { s with processing := setInsert t.id s.processing } content).1
           t.created_at (tweetUrl o.user t.id) accountId
           (generateContentHash content t.media) t.conversation_id false) := by
    unfold processTweetBody
    simp only [hsk0, hexp', hskM]
    simp [hnew]
    rfl
  unfold processTweet
  rw [if_neg hg1, if_neg hg2]
  simp only [hbody]
  constructor
  · trivial
  · simp only [saveProcessedTweet]
    rw [sendTelegram_db, translateText_db]

def c9Oracles : Oracles :=
  ⟨(false, "normal", none), none, fun x => x, true, "01/01 00:00", "target", 9⟩

def c9Post : Tweet :=
  ⟨"555", "bitcoin funding rates remain elevated across exchanges", 0,
   "cv9", none, []⟩

theorem C9_witness :
    shouldSkipPost c9Post.text [] = (false, "normal") ∧
    expandTweet c9Oracles c9Post = ExpandOutcome.ok c9Post.text ∧
    (generateContentHash c9Post.text [] ∉
      emptyState.processed_content_hashes) ∧
    (processTweet { c9Oracles with relayDelivered := false } emptyState
      c9Post "account_1").1 = true ∧
    (processTweet { c9Oracles with relayDelivered := false } emptyState
      c9Post "account_1").2.db
      = [ProcessedRecord.mk "555"
          "bitcoin funding rates remain elevated across exchanges"
          "bitcoin funding rates remain elevated across exchanges" 0
          "https://twitter.com/target/status/555" "account_1"
          "bitcoin funding rates remain elevated across exchanges" "cv9"
          false 9] :=
  ⟨by decide, by decide, by decide,
   (C9_record_written_regardless c9Oracles emptyState c9Post "account_1"
     c9Post.text "normal" "normal" (by decide) (by decide) (by decide)
     (by decide) (by decide) (by decide) false).1,
   ((C9_record_written_regardless c9Oracles emptyState c9Post "account_1"
     c9Post.text "normal" "normal" (by decide) (by decide) (by decide)
     (by decide) (by decide) (by decide) false).2).trans (by decide)⟩

/-- C10: the entry guard consults only the two in-memory sets - its value
    is invariant under any change of the durable table - and the periodic
    memory cleanup, on a processed-tweet set of more than 1000 ids, keeps
    exactly the 500 lexicographically greatest; an id evicted by such a
    cleanup is no longer blocked by the entry guard. -/
theorem C10_cleanup_unblocks (s : BotState) (tweetId : String)
    (hsort : chainSorted s.processed_tweets = true)
    (hlen : 1000 < s.processed_tweets.length)
    (hmem : tweetId ∈ s.processed_tweets.take (s.processed_tweets.length - 500))
    (hproc : tweetId ∉ s.processing) :
    (cleanupMemory s).processed_tweets
      = s.processed_tweets.drop (s.processed_tweets.length - 500) ∧
    tweetId ∉ (cleanupMemory s).processed_tweets ∧
    guardBlocks (cleanupMemory s) tweetId = false ∧
    (∀ db1 db2 : List ProcessedRecord,
      guardBlocks { s with db := db1 } tweetId
        = guardBlocks { s with db := db2 } tweetId) := by
  have hpt : (cleanupMemory s).processed_tweets
      = s.processed_tweets.drop (s.processed_tweets.length - 500) := by
    unfold cleanupMemory
    simp only [sortStrings_eq_self s.processed_tweets hsort, if_pos hlen]
  have hnot : tweetId ∉ (cleanupMemory s).processed_tweets := by
    rw [hpt]
    intro hin
    have hpw := chainSorted_pairwise s.processed_tweets hsort
    have hsplit := List.take_append_drop
      (s.processed_tweets.length - 500) s.processed_tweets
    rw [← hsplit] at hpw
    have hcross := (List.pairwise_append.mp hpw).2.2
    have := hcross tweetId hmem tweetId hin
    rw [strLt_irrefl tweetId] at this
    exact Bool.false_ne_true this
  have hkeep : (cleanupMemory s).processing = s.processing := by
    unfold cleanupMemory
    simp
  refine ⟨hpt, hnot, ?_, ?_⟩
  · unfold guardBlocks
    rw [hkeep]
    simp [hnot, hproc]
  · intro db1 db2
    rfl

def fourDigit (n : Nat) : String :=
  String.mk [digitChar (n / 1000), digitChar (n / 100 % 10),
             digitChar (n / 10 % 10), digitChar (n % 10)]

def c10State : BotState :=
  { emptyState with processed_tweets := (List.range 1001).map fourDigit }

set_option maxRecDepth 100000 in
theorem C10_witness :
    chainSorted c10State.processed_tweets = true ∧
    1000 < c10State.processed_tweets.length ∧
    "0000" ∈ c10State.processed_tweets.take
      (c10State.processed_tweets.length - 500) ∧
    "0000" ∉ (cleanupMemory c10State).processed_tweets ∧
    guardBlocks (cleanupMemory c10State) "0000" = false :=
  ⟨by decide, by decide, by decide,
   (C10_cleanup_unblocks c10State "0000" (by decide) (by decide) (by decide)
     (by decide)).2.1,
   (C10_cleanup_unblocks c10State "0000" (by decide) (by decide) (by decide)
     (by decide)).2.2.1⟩

end XTelegram
